import Mathlib

/-!
Verification of vcap (src/vcap.c), a single-frame V4L2 still capture tool.

The development shallowly embeds the two halves of the program:

* the pure pixel arithmetic of `YUYV2JPEG` (the YUYV → RGB conversion loop,
  lines 272-304 of vcap.c), as executable functions over `List Nat` byte
  buffers and `Int` arithmetic (C `int` math; the C `>> 8` on a signed int is
  an arithmetic shift on every supported compiler, i.e. floor division by
  256);

* the effectful control flow of `checkCapabilities`, `setFormat`,
  `allocBuffer`, `captureImage`, `saveImage` and `main`, as functions from a
  `Device` record (the outcome each V4L2/libc call would have) to a result
  plus a trace of `Event`s, one event per system interaction or diagnostic
  message the program emits.
-/

/-- The CLAMP macro of vcap.c line 55:
`(((v) < (min)) ? (min) : (((v) > (max)) ? (max) : (v)))`. -/
def CLAMP (val lo hi : Int) : Int :=
  if val < lo then lo else if val > hi then hi else val

/-- Arithmetic right shift by 8 of a C `int`: floor division by 256
(gcc/clang implement `>>` on negative signed operands as arithmetic shift). -/
def shr8 (x : Int) : Int :=
  Int.fdiv x 256

/-- One interleaved RGB output pixel (each channel a C `int` just before the
byte store; the stores at lines 292-294 clamp to [0,255] first). -/
structure RGB where
  r : Int
  g : Int
  b : Int
deriving DecidableEq, Repr

/-- One iteration of the inner pixel loop of `YUYV2JPEG` (vcap.c lines
277-294): reading from the flat byte buffer at the current `yuyv` offset,
with `z` false for the first pixel of a pair (luma byte at offset 0) and
true for the second (luma byte at offset 2); chroma bytes at offsets 1 and 3
are shared.  Out-of-range reads default to 0 (the claims only concern
buffers large enough for the requested dimensions). -/
def yuyvPixel (buf : List Nat) (off : Nat) (z : Bool) : RGB :=
  let y : Int := (if z then (buf.getD (off + 2) 0 : Int) else (buf.getD off 0 : Int)) * 256
  let u : Int := (buf.getD (off + 1) 0 : Int) - 128
  let v : Int := (buf.getD (off + 3) 0 : Int) - 128
  { r := CLAMP (shr8 (y + 359 * v)) 0 255
    g := CLAMP (shr8 (y - 88 * u - 183 * v)) 0 255
    b := CLAMP (shr8 (y + 454 * u)) 0 255 }

/-- The inner `for (x = 0; x < vi->width; x++)` loop of `YUYV2JPEG` (lines
277-300): produces the row's pixels and returns the advanced `yuyv` offset
and toggle `z` (the C code advances `yuyv` by 4 and resets `z` after every
second pixel, via the post-increment test at line 296). -/
def convRow (buf : List Nat) : Nat → Bool → Nat → List RGB × Nat × Bool
  | off, z, 0 => ([], off, z)
  | off, z, n + 1 =>
    let s := convRow buf (if z then off + 4 else off) (!z) n
    (yuyvPixel buf off z :: s.1, s.2)

/-- The outer `while (next_scanline < image_height)` loop (lines 273-304):
one row per iteration, with the `yuyv` offset and toggle carried across
rows, exactly as in the C code where both live outside the loop. -/
def convRows (buf : List Nat) (w : Nat) : Nat → Bool → Nat → List (List RGB)
  | _, _, 0 => []
  | off, z, hh + 1 =>
    let s := convRow buf off z w
    s.1 :: convRows buf w s.2.1 s.2.2 hh

/-- The full pixel conversion performed by `YUYV2JPEG` before the rows are
handed to libjpeg: scanlines in order, starting at offset 0 with `z = 0`. -/
def YUYV2RGB (buf : List Nat) (w h : Nat) : List (List RGB) :=
  convRows buf w 0 false h

/-- Written from the claim text (C3): for a pair packed as Y0,U,Y1,V, the
output pixel with luma byte `Yb` has y = Yb << 8, u = U - 128, v = V - 128,
r = (y + 359*v) >> 8, g = (y - 88*u - 183*v) >> 8, b = (y + 454*u) >> 8,
each clamped to [0, 255]. -/
def specPairFormula (Yb U V : Nat) : RGB :=
  let y : Int := (Yb : Int) * 256
  let u : Int := (U : Int) - 128
  let v : Int := (V : Int) - 128
  { r := CLAMP (shr8 (y + 359 * v)) 0 255
    g := CLAMP (shr8 (y - 88 * u - 183 * v)) 0 255
    b := CLAMP (shr8 (y + 454 * u)) 0 255 }

lemma CLAMP_bounds (x lo hi : Int) (h : lo ≤ hi) :
    lo ≤ CLAMP x lo hi ∧ CLAMP x lo hi ≤ hi := by
  unfold CLAMP
  split_ifs <;> omega

lemma yuyvPixel_bounds (buf : List Nat) (off : Nat) (z : Bool) :
    0 ≤ (yuyvPixel buf off z).r ∧ (yuyvPixel buf off z).r ≤ 255 ∧
    0 ≤ (yuyvPixel buf off z).g ∧ (yuyvPixel buf off z).g ≤ 255 ∧
    0 ≤ (yuyvPixel buf off z).b ∧ (yuyvPixel buf off z).b ≤ 255 := by
  unfold yuyvPixel
  refine ⟨?_, ?_, ?_, ?_, ?_, ?_⟩ <;>
    first
      | exact (CLAMP_bounds _ 0 255 (by omega)).1
      | exact (CLAMP_bounds _ 0 255 (by omega)).2

lemma convRow_length (buf : List Nat) :
    ∀ (n : Nat) (off : Nat) (z : Bool), (convRow buf off z n).1.length = n := by
  intro n
  induction n with
  | zero => intro off z; simp [convRow]
  | succ k ih => intro off z; simp [convRow, ih]

lemma convRow_bounds (buf : List Nat) :
    ∀ (n : Nat) (off : Nat) (z : Bool), ∀ p ∈ (convRow buf off z n).1,
      0 ≤ p.r ∧ p.r ≤ 255 ∧ 0 ≤ p.g ∧ p.g ≤ 255 ∧ 0 ≤ p.b ∧ p.b ≤ 255 := by
  intro n
  induction n with
  | zero => intro off z p hp; simp [convRow] at hp
  | succ k ih =>
    intro off z p hp
    simp only [convRow, List.mem_cons] at hp
    rcases hp with hp | hp
    · subst hp; exact yuyvPixel_bounds buf off z
    · exact ih _ _ p hp

lemma convRows_length (buf : List Nat) (w : Nat) :
    ∀ (h : Nat) (off : Nat) (z : Bool), (convRows buf w off z h).length = h := by
  intro h
  induction h with
  | zero => intro off z; simp [convRows]
  | succ k ih => intro off z; simp [convRows, ih]

lemma convRows_row_length (buf : List Nat) (w : Nat) :
    ∀ (h : Nat) (off : Nat) (z : Bool), ∀ row ∈ convRows buf w off z h,
      row.length = w := by
  intro h
  induction h with
  | zero => intro off z row hr; simp [convRows] at hr
  | succ k ih =>
    intro off z row hr
    simp only [convRows, List.mem_cons] at hr
    rcases hr with hr | hr
    · subst hr; exact convRow_length buf w _ _
    · exact ih _ _ row hr

lemma convRows_bounds (buf : List Nat) (w : Nat) :
    ∀ (h : Nat) (off : Nat) (z : Bool), ∀ row ∈ convRows buf w off z h, ∀ p ∈ row,
      0 ≤ p.r ∧ p.r ≤ 255 ∧ 0 ≤ p.g ∧ p.g ≤ 255 ∧ 0 ≤ p.b ∧ p.b ≤ 255 := by
  intro h
  induction h with
  | zero => intro off z row hr; simp [convRows] at hr
  | succ k ih =>
    intro off z row hr p hp
    simp only [convRows, List.mem_cons] at hr
    rcases hr with hr | hr
    · subst hr; exact convRow_bounds buf w _ _ p hp
    · exact ih _ _ row hr p hp

/-- Outcome of the bounded `select` readiness wait in `captureImage`
(vcap.c lines 366-377): negative return (hard error), zero (timeout after
the fixed 5-second bound), or positive (frame ready). -/
inductive SelectRes where
  | err
  | timeout
  | ready
deriving DecidableEq, Repr

/-- The environment of one program run: the outcome each system call would
have if the program performs it.  Per-cycle calls (`captureImage` runs
twice from `main`) are indexed by cycle number. -/
structure Device where
  openOk : Bool
  queryCapOk : Bool
  capVideoCapture : Bool
  capStreaming : Bool
  sFmtOk : Bool
  gFmtOk : Bool
  gFmtWidth : Nat
  gFmtHeight : Nat
  reqBufsOk : Bool
  reqBufsEinval : Bool
  queryBufOk : Bool
  mmapOk : Bool
  qbufOk : Nat → Bool
  streamOnOk : Nat → Bool
  selectRes : Nat → SelectRes
  dqbufOk : Nat → Bool
  streamOffOk : Nat → Bool
  fopenOk : Bool
  callocOk : Bool

/-- One observable step of the program: a system interaction (emitted when
the call is attempted) or a diagnostic message (each distinct message of
vcap.c is a distinct constructor). -/
inductive Event where
  | openDev
  | errOpen
  | queryCap
  | errQueryCap
  | errNoCapture
  | errNoStreaming
  | sFmt (w h : Int)
  | errSFmt
  | gFmt
  | errGFmt
  | warnWidth
  | warnHeight
  | reqBufs
  | errNoMmap
  | errReqBufs
  | queryBuf
  | errQueryBuf
  | mmapB
  | errMmap
  | qbuf (c : Nat)
  | errQbuf (c : Nat)
  | streamOn (c : Nat)
  | errStreamOn (c : Nat)
  | selectW (c : Nat)
  | errSelect (c : Nat)
  | errTimeout (c : Nat)
  | dqbuf (c : Nat)
  | errDqbuf (c : Nat)
  | streamOff (c : Nat)
  | errStreamOff (c : Nat)
  | errInitialFrame
  | fopenE
  | errFopen
  | errLineBuf
  | encodeRows (w h : Int)
  | closeFile
  | savedMsg
  | munmapB
  | closeDev
deriving DecidableEq, Repr

/-- Conversion of a C `int` value to `unsigned int`, as performed by the
usual arithmetic conversions in the comparisons
`vi->fmt.fmt.pix.width != vi->width` (vcap.c lines 165, 173). -/
def toU32 (x : Int) : Nat :=
  (x % 4294967296).toNat

/-- Conversion of an `unsigned int` (`__u32`) value to a C `int`, as
performed by the assignments `vi->width = vi->fmt.fmt.pix.width`
(lines 170, 178); gcc wraps modulo 2^32. -/
def toInt32 (n : Nat) : Int :=
  let m : Nat := n % 4294967296
  if m < 2147483648 then (m : Int) else (m : Int) - 4294967296

/-- `checkCapabilities` (vcap.c lines 110-139): VIDIOC_QUERYCAP, then the
two capability-flag tests, each failure with its own message. -/
def checkCapabilities (d : Device) : Bool × List Event :=
  if !d.queryCapOk then (false, [.queryCap, .errQueryCap])
  else if !d.capVideoCapture then (false, [.queryCap, .errNoCapture])
  else if !d.capStreaming then (false, [.queryCap, .errNoStreaming])
  else (true, [.queryCap])

/-- `initVideoDevice` (lines 396-415): open the device read/write, then
check capabilities, closing the descriptor if they are unsupported. -/
def initVideoDevice (d : Device) : Bool × List Event :=
  if !d.openOk then (false, [.openDev, .errOpen])
  else if !(checkCapabilities d).1 then
    (false, [Event.openDev] ++ (checkCapabilities d).2 ++ [Event.closeDev])
  else (true, [Event.openDev] ++ (checkCapabilities d).2)

/-- `setFormat` (lines 141-182): VIDIOC_S_FMT with the requested
width/height and YUYV format, VIDIOC_G_FMT to re-read the driver's choice,
then per-dimension reconciliation: on mismatch, warn and adopt the driver's
value; on match, keep the (identical) stored value.  Returns the session's
width/height on success. -/
def setFormat (d : Device) (w h : Int) : Option (Int × Int) × List Event :=
  if !d.sFmtOk then (none, [.sFmt w h, .errSFmt])
  else if !d.gFmtOk then (none, [.sFmt w h, .gFmt, .errGFmt])
  else
    let wMismatch := d.gFmtWidth ≠ toU32 w
    let hMismatch := d.gFmtHeight ≠ toU32 h
    (some (if wMismatch then toInt32 d.gFmtWidth else w,
           if hMismatch then toInt32 d.gFmtHeight else h),
     [Event.sFmt w h, Event.gFmt]
       ++ (if wMismatch then [Event.warnWidth] else [])
       ++ (if hMismatch then [Event.warnHeight] else []))

/-- `allocBuffer` (lines 184-232): VIDIOC_REQBUFS for one mmap buffer (an
EINVAL rejection gets the extra unsupported-mmap message), VIDIOC_QUERYBUF,
then mmap. -/
def allocBuffer (d : Device) : Bool × List Event :=
  if !d.reqBufsOk then
    (false, [Event.reqBufs]
      ++ (if d.reqBufsEinval then [Event.errNoMmap] else [])
      ++ [Event.errReqBufs])
  else if !d.queryBufOk then (false, [.reqBufs, .queryBuf, .errQueryBuf])
  else if !d.mmapOk then (false, [.reqBufs, .queryBuf, .mmapB, .errMmap])
  else (true, [.reqBufs, .queryBuf, .mmapB])

/-- `captureImage` (lines 332-394) for cycle `c`: VIDIOC_QBUF,
VIDIOC_STREAMON, the bounded select wait, then on readiness VIDIOC_DQBUF
and VIDIOC_STREAMOFF.  Every early return happens exactly where the C code
returns: in particular the error, timeout and dequeue-failure paths return
without attempting VIDIOC_STREAMOFF. -/
def captureImage (d : Device) (c : Nat) : Bool × List Event :=
  if !(d.qbufOk c) then (false, [.qbuf c, .errQbuf c])
  else if !(d.streamOnOk c) then (false, [.qbuf c, .streamOn c, .errStreamOn c])
  else
    match d.selectRes c with
    | .err => (false, [.qbuf c, .streamOn c, .selectW c, .errSelect c])
    | .timeout => (false, [.qbuf c, .streamOn c, .selectW c, .errTimeout c])
    | .ready =>
      if !(d.dqbufOk c) then
        (false, [.qbuf c, .streamOn c, .selectW c, .dqbuf c, .errDqbuf c])
      else if !(d.streamOffOk c) then
        (false, [.qbuf c, .streamOn c, .selectW c, .dqbuf c, .streamOff c,
                 .errStreamOff c])
      else (true, [.qbuf c, .streamOn c, .selectW c, .dqbuf c, .streamOff c])

/-- The effectful shell of `YUYV2JPEG` (lines 239-312) with the session
dimensions it reads from `vi`: the row-buffer calloc may fail (returning
false before any scanline is written); otherwise the conversion loop runs
and the compressed scanlines go to the already-open file. -/
def YUYV2JPEGrun (d : Device) (w h : Int) : Bool × List Event :=
  if !d.callocOk then (false, [.errLineBuf])
  else (true, [.encodeRows w h])

/-- `saveImage` (lines 314-330): fopen the output path for writing (this is
the only place the output file is created/truncated), run `YUYV2JPEG`
ignoring its result, fclose, print the saved-to message, return true. -/
def saveImage (d : Device) (w h : Int) : Bool × List Event :=
  if !d.fopenOk then (false, [.fopenE, .errFopen])
  else (true, [Event.fopenE] ++ (YUYV2JPEGrun d w h).2
         ++ [Event.closeFile, Event.savedMsg])

/-- `main` after option processing (lines 468-502): init, set format,
allocate the buffer, a discard capture cycle (cycle 0, fatal on failure),
a live capture cycle (cycle 1), and — only if the live cycle succeeded —
`saveImage` with the session dimensions; then release/close and return 0.
Note the C code returns 0 even when the live cycle or `saveImage` fails. -/
def runMain (d : Device) (reqW reqH : Int) : Nat × List Event :=
  if !(initVideoDevice d).1 then (1, (initVideoDevice d).2)
  else
    match (setFormat d reqW reqH).1 with
    | none => (1, (initVideoDevice d).2 ++ (setFormat d reqW reqH).2 ++ [Event.closeDev])
    | some wh =>
      if !(allocBuffer d).1 then
        (1, (initVideoDevice d).2 ++ (setFormat d reqW reqH).2
          ++ (allocBuffer d).2 ++ [Event.closeDev])
      else if !(captureImage d 0).1 then
        (1, (initVideoDevice d).2 ++ (setFormat d reqW reqH).2
          ++ (allocBuffer d).2 ++ (captureImage d 0).2
          ++ [Event.errInitialFrame, Event.munmapB, Event.closeDev])
      else if !(captureImage d 1).1 then
        (0, (initVideoDevice d).2 ++ (setFormat d reqW reqH).2
          ++ (allocBuffer d).2 ++ (captureImage d 0).2 ++ (captureImage d 1).2
          ++ [Event.munmapB, Event.closeDev])
      else
        (0, (initVideoDevice d).2 ++ (setFormat d reqW reqH).2
          ++ (allocBuffer d).2 ++ (captureImage d 0).2 ++ (captureImage d 1).2
          ++ (saveImage d wh.1 wh.2).2 ++ [Event.munmapB, Event.closeDev])

/-- The C `atoi` on the digit-consumption phase: accumulate decimal digits,
stop at the first non-digit. -/
def atoiDigits : List Char → Nat → Nat
  | [], acc => acc
  | ch :: rest, acc =>
    if ch.isDigit then atoiDigits rest (acc * 10 + (ch.toNat - 48)) else acc

/-- C `isspace` for the default locale: space, \t, \n, \v, \f, \r. -/
def isSpaceC (ch : Char) : Bool :=
  ch.toNat = 32 || (9 ≤ ch.toNat && ch.toNat ≤ 13)

/-- Leading-whitespace skip of `atoi`. -/
def skipSpaces : List Char → List Char
  | [] => []
  | ch :: rest => if isSpaceC ch then skipSpaces rest else ch :: rest

/-- C `atoi` (used at vcap.c lines 444 and 451): skip whitespace, optional
sign, consume decimal digits; yields 0 when no digits follow.  Overflow is
undefined behaviour in C and is modelled as exact integer arithmetic. -/
def atoi (s : String) : Int :=
  match skipSpaces s.data with
  | [] => 0
  | ch :: rest =>
    if ch = '-' then -(atoiDigits rest 0 : Int)
    else if ch = '+' then (atoiDigits rest 0 : Int)
    else (atoiDigits (ch :: rest) 0 : Int)

/-- The `-w`/`-h` option handling of `main` (lines 443-456): assign
`atoi(optarg)`; if that is 0, warn and fall back to the default (640 for
width, 480 for height).  Returns the adopted value and whether the
invalid-dimension warning was printed. -/
def parseDimArg (deflt : Int) (s : String) : Int × Bool :=
  if atoi s = 0 then (deflt, true) else (atoi s, false)

/-- All device calls succeed, frame ready immediately on both cycles. -/
def devOK : Device where
  openOk := true
  queryCapOk := true
  capVideoCapture := true
  capStreaming := true
  sFmtOk := true
  gFmtOk := true
  gFmtWidth := 640
  gFmtHeight := 480
  reqBufsOk := true
  reqBufsEinval := false
  queryBufOk := true
  mmapOk := true
  qbufOk := fun _ => true
  streamOnOk := fun _ => true
  selectRes := fun _ => SelectRes.ready
  dqbufOk := fun _ => true
  streamOffOk := fun _ => true
  fopenOk := true
  callocOk := true

/-- Like `devOK` but the live capture cycle (cycle 1) times out. -/
def devLiveTimeout : Device :=
  { devOK with selectRes := fun c => if c = 0 then SelectRes.ready else SelectRes.timeout }

/-- Like `devOK` but every readiness wait times out. -/
def devTimeout : Device :=
  { devOK with selectRes := fun _ => SelectRes.timeout }

/-- The two required capability flags plus a successful query (the
conjunction under which `checkCapabilities` returns true). -/
def capsOK (d : Device) : Bool :=
  d.queryCapOk && d.capVideoCapture && d.capStreaming

/-- Both format ioctls succeed. -/
def fmtOK (d : Device) : Bool :=
  d.sFmtOk && d.gFmtOk

/-- Buffer request, query and mapping all succeed. -/
def bufOK (d : Device) : Bool :=
  d.reqBufsOk && d.queryBufOk && d.mmapOk

/-- Everything up to and including buffer allocation succeeds. -/
def setupOK (d : Device) : Bool :=
  d.openOk && capsOK d && fmtOK d && bufOK d

/-- All five steps of capture cycle `c` succeed. -/
def cycleOK (d : Device) (c : Nat) : Bool :=
  d.qbufOk c && d.streamOnOk c && (decide (d.selectRes c = SelectRes.ready))
    && d.dqbufOk c && d.streamOffOk c

lemma checkCapabilities_fst (d : Device) : (checkCapabilities d).1 = capsOK d := by
  unfold checkCapabilities capsOK
  cases hq : d.queryCapOk <;> cases hv : d.capVideoCapture <;>
    cases hs : d.capStreaming <;> simp [hq, hv, hs]

lemma initVideoDevice_fst (d : Device) :
    (initVideoDevice d).1 = (d.openOk && capsOK d) := by
  unfold initVideoDevice
  rw [checkCapabilities_fst]
  cases ho : d.openOk <;> cases hc : capsOK d <;> simp [ho, hc]

lemma setFormat_isSome (d : Device) (w h : Int) :
    (setFormat d w h).1.isSome = fmtOK d := by
  unfold setFormat fmtOK
  cases hs : d.sFmtOk <;> cases hg : d.gFmtOk <;> simp [hs, hg]

lemma allocBuffer_fst (d : Device) : (allocBuffer d).1 = bufOK d := by
  unfold allocBuffer bufOK
  cases hr : d.reqBufsOk <;> cases hq : d.queryBufOk <;>
    cases hm : d.mmapOk <;> simp [hr, hq, hm]

lemma captureImage_fst (d : Device) (c : Nat) :
    (captureImage d c).1 = cycleOK d c := by
  unfold captureImage cycleOK
  cases hq : d.qbufOk c <;> cases hs : d.streamOnOk c <;>
    cases hr : d.selectRes c <;> cases hd : d.dqbufOk c <;>
      cases ho : d.streamOffOk c <;> simp [hq, hs, hr, hd, ho]

lemma saveImage_fst (d : Device) (w h : Int) : (saveImage d w h).1 = d.fopenOk := by
  unfold saveImage
  cases hf : d.fopenOk <;> simp [hf]

lemma runMain_fst (d : Device) (reqW reqH : Int) :
    (runMain d reqW reqH).1 = if (setupOK d && cycleOK d 0) = true then 0 else 1 := by
  unfold runMain
  cases hiv : (initVideoDevice d).1
  · rw [initVideoDevice_fst] at hiv
    have hsetup : setupOK d = false := by
      unfold setupOK
      rcases Bool.and_eq_false_iff.mp hiv with h | h <;> simp [h]
    simp [hsetup]
  · rw [initVideoDevice_fst] at hiv
    rcases hsf : (setFormat d reqW reqH).1 with _ | wh
    · have hfmt : fmtOK d = false := by
        rw [← setFormat_isSome d reqW reqH, hsf]; rfl
      have hsetup : setupOK d = false := by
        unfold setupOK; simp [hfmt]
      simp [hsf, hsetup]
    · have hfmt : fmtOK d = true := by
        rw [← setFormat_isSome d reqW reqH, hsf]; rfl
      cases hab : (allocBuffer d).1
      · rw [allocBuffer_fst] at hab
        have hsetup : setupOK d = false := by unfold setupOK; simp [hab]
        simp [hsf, hab, allocBuffer_fst, hsetup]
      · rw [allocBuffer_fst] at hab
        have hsetup : setupOK d = true := by
          unfold setupOK
          simp [Bool.and_eq_true] at hiv ⊢
          exact ⟨⟨⟨hiv.1, hiv.2⟩, hfmt⟩, hab⟩
        cases hc0 : (captureImage d 0).1
        · rw [captureImage_fst] at hc0
          simp [hsf, allocBuffer_fst, hab, captureImage_fst, hc0, hsetup]
        · rw [captureImage_fst] at hc0
          cases hc1 : (captureImage d 1).1 <;>
            simp [hsf, allocBuffer_fst, hab, captureImage_fst, hc0, hc1, hsetup]

lemma fopenE_not_mem_iv (d : Device) : Event.fopenE ∉ (initVideoDevice d).2 := by
  unfold initVideoDevice checkCapabilities
  cases ho : d.openOk <;> cases hq : d.queryCapOk <;> cases hv : d.capVideoCapture <;>
    cases hs : d.capStreaming <;> simp [ho, hq, hv, hs]

lemma fopenE_not_mem_sf (d : Device) (w h : Int) : Event.fopenE ∉ (setFormat d w h).2 := by
  unfold setFormat
  cases hs : d.sFmtOk <;> cases hg : d.gFmtOk <;> simp [hs, hg]

lemma fopenE_not_mem_ab (d : Device) : Event.fopenE ∉ (allocBuffer d).2 := by
  unfold allocBuffer
  cases hr : d.reqBufsOk <;> cases hq : d.queryBufOk <;> cases hm : d.mmapOk <;>
    cases he : d.reqBufsEinval <;> simp [hr, hq, hm, he]

lemma fopenE_not_mem_ci (d : Device) (c : Nat) : Event.fopenE ∉ (captureImage d c).2 := by
  unfold captureImage
  cases hq : d.qbufOk c <;> cases hs : d.streamOnOk c <;> cases hr : d.selectRes c <;>
    cases hd : d.dqbufOk c <;> cases ho : d.streamOffOk c <;> simp [hq, hs, hr, hd, ho]

lemma encodeRows_not_mem_iv (d : Device) (w' h' : Int) :
    Event.encodeRows w' h' ∉ (initVideoDevice d).2 := by
  unfold initVideoDevice checkCapabilities
  cases ho : d.openOk <;> cases hq : d.queryCapOk <;> cases hv : d.capVideoCapture <;>
    cases hs : d.capStreaming <;> simp [ho, hq, hv, hs]

lemma encodeRows_not_mem_sf (d : Device) (w h w' h' : Int) :
    Event.encodeRows w' h' ∉ (setFormat d w h).2 := by
  unfold setFormat
  cases hs : d.sFmtOk <;> cases hg : d.gFmtOk <;> simp [hs, hg]

lemma encodeRows_not_mem_ab (d : Device) (w' h' : Int) :
    Event.encodeRows w' h' ∉ (allocBuffer d).2 := by
  unfold allocBuffer
  cases hr : d.reqBufsOk <;> cases hq : d.queryBufOk <;> cases hm : d.mmapOk <;>
    cases he : d.reqBufsEinval <;> simp [hr, hq, hm, he]

lemma encodeRows_not_mem_ci (d : Device) (c : Nat) (w' h' : Int) :
    Event.encodeRows w' h' ∉ (captureImage d c).2 := by
  unfold captureImage
  cases hq : d.qbufOk c <;> cases hs : d.streamOnOk c <;> cases hr : d.selectRes c <;>
    cases hd : d.dqbufOk c <;> cases ho : d.streamOffOk c <;> simp [hq, hs, hr, hd, ho]

lemma encodeRows_mem_save (d : Device) (w h w' h' : Int) :
    Event.encodeRows w' h' ∈ (saveImage d w h).2 → w' = w ∧ h' = h := by
  unfold saveImage YUYV2JPEGrun
  cases hf : d.fopenOk <;> cases hc : d.callocOk <;> simp [hf, hc]

lemma fopenE_mem_runMain (d : Device) (reqW reqH : Int) :
    Event.fopenE ∈ (runMain d reqW reqH).2 →
      (captureImage d 0).1 = true ∧ (captureImage d 1).1 = true := by
  unfold runMain
  cases hiv : (initVideoDevice d).1
  · intro hmem
    simp only [Bool.not_false, if_true] at hmem
    exact absurd hmem (fopenE_not_mem_iv d)
  · rcases hsf : (setFormat d reqW reqH).1 with _ | wh
    · intro hmem
      simp only [hsf, Bool.not_true, Bool.false_eq_true, if_false] at hmem
      simp [List.mem_append, fopenE_not_mem_iv, fopenE_not_mem_sf] at hmem
    · cases hab : (allocBuffer d).1
      · intro hmem
        simp only [hsf, hab, Bool.not_true, Bool.not_false, if_true, Bool.false_eq_true,
          if_false] at hmem
        simp [List.mem_append, fopenE_not_mem_iv, fopenE_not_mem_sf,
          fopenE_not_mem_ab] at hmem
      · cases hc0 : (captureImage d 0).1
        · intro hmem
          simp only [hsf, hab, hc0, Bool.not_true, Bool.not_false, if_true,
            Bool.false_eq_true, if_false] at hmem
          simp [List.mem_append, fopenE_not_mem_iv, fopenE_not_mem_sf,
            fopenE_not_mem_ab, fopenE_not_mem_ci] at hmem
        · cases hc1 : (captureImage d 1).1
          · intro hmem
            simp only [hsf, hab, hc0, hc1, Bool.not_true, Bool.not_false, if_true,
              Bool.false_eq_true, if_false] at hmem
            simp [List.mem_append, fopenE_not_mem_iv, fopenE_not_mem_sf,
              fopenE_not_mem_ab, fopenE_not_mem_ci] at hmem
          · intro _
            exact ⟨rfl, rfl⟩

lemma captureImage_true_ready (d : Device) (c : Nat)
    (h : (captureImage d c).1 = true) : d.selectRes c = SelectRes.ready := by
  rw [captureImage_fst] at h
  unfold cycleOK at h
  simp only [Bool.and_eq_true, decide_eq_true_eq] at h
  exact h.1.1.2

lemma sFmt_mem_setFormat (d : Device) (w h : Int) :
    Event.sFmt w h ∈ (setFormat d w h).2 := by
  unfold setFormat
  cases hs : d.sFmtOk <;> cases hg : d.gFmtOk <;> simp [hs, hg]

lemma sFmt_mem_runMain (d : Device) (reqW reqH : Int)
    (hiv : (initVideoDevice d).1 = true) :
    Event.sFmt reqW reqH ∈ (runMain d reqW reqH).2 := by
  unfold runMain
  rcases hsf : (setFormat d reqW reqH).1 with _ | wh
  · simp only [hiv, hsf, Bool.not_true, Bool.false_eq_true, if_false]
    simp [List.mem_append, sFmt_mem_setFormat]
  · simp only [hiv, hsf, Bool.not_true, Bool.false_eq_true, if_false]
    split_ifs <;> simp [List.mem_append, sFmt_mem_setFormat]

lemma qbuf_mem_captureImage (d : Device) (c : Nat) :
    Event.qbuf c ∈ (captureImage d c).2 := by
  unfold captureImage
  cases hq : d.qbufOk c <;> cases hs : d.streamOnOk c <;> cases hr : d.selectRes c <;>
    cases hd : d.dqbufOk c <;> cases ho : d.streamOffOk c <;> simp [hq, hs, hr, hd, ho]

lemma toInt32_small (n : Nat) (h : n < 2147483648) : toInt32 n = (n : Int) := by
  unfold toInt32
  have h2 : n % 4294967296 = n := Nat.mod_eq_of_lt (by omega)
  simp only [h2]
  rw [if_pos h]

lemma toU32_eq_iff (x : Int) (m : Nat) (hm : m < 2147483648)
    (hx1 : -2147483648 ≤ x) (hx2 : x < 2147483648) : toU32 x = m ↔ x = (m : Int) := by
  unfold toU32
  omega

lemma setFormat_ok (d : Device) (w h : Int)
    (hs : d.sFmtOk = true) (hg : d.gFmtOk = true)
    (hwb : d.gFmtWidth < 2147483648) (hhb : d.gFmtHeight < 2147483648)
    (hw1 : -2147483648 ≤ w) (hw2 : w < 2147483648)
    (hh1 : -2147483648 ≤ h) (hh2 : h < 2147483648) :
    (setFormat d w h).1 = some ((d.gFmtWidth : Int), (d.gFmtHeight : Int)) ∧
    ((d.gFmtWidth : Int) ≠ w → Event.warnWidth ∈ (setFormat d w h).2) ∧
    ((d.gFmtHeight : Int) ≠ h → Event.warnHeight ∈ (setFormat d w h).2) := by
  have hwiff := toU32_eq_iff w d.gFmtWidth hwb hw1 hw2
  have hhiff := toU32_eq_iff h d.gFmtHeight hhb hh1 hh2
  have hwe : (if d.gFmtWidth ≠ toU32 w then toInt32 d.gFmtWidth else w)
      = (d.gFmtWidth : Int) := by
    by_cases hcw : d.gFmtWidth = toU32 w
    · rw [if_neg (not_not_intro hcw)]
      exact hwiff.mp hcw.symm
    · rw [if_pos hcw]
      exact toInt32_small d.gFmtWidth hwb
  have hhe : (if d.gFmtHeight ≠ toU32 h then toInt32 d.gFmtHeight else h)
      = (d.gFmtHeight : Int) := by
    by_cases hch : d.gFmtHeight = toU32 h
    · rw [if_neg (not_not_intro hch)]
      exact hhiff.mp hch.symm
    · rw [if_pos hch]
      exact toInt32_small d.gFmtHeight hhb
  refine ⟨?_, ?_, ?_⟩
  · unfold setFormat
    simp only [hs, hg, Bool.not_true, Bool.false_eq_true, if_false]
    rw [hwe, hhe]
  · intro hne
    have hcw : d.gFmtWidth ≠ toU32 w := fun hc => hne ((hwiff.mp hc.symm).symm)
    unfold setFormat
    simp only [hs, hg, Bool.not_true, Bool.false_eq_true, if_false]
    rw [if_pos hcw]
    simp [List.mem_append]
  · intro hne
    have hch : d.gFmtHeight ≠ toU32 h := fun hc => hne ((hhiff.mp hc.symm).symm)
    unfold setFormat
    simp only [hs, hg, Bool.not_true, Bool.false_eq_true, if_false]
    rw [if_pos hch]
    simp [List.mem_append]

lemma runMain_noCapture (d : Device) (reqW reqH : Int)
    (ho : d.openOk = true) (hq : d.queryCapOk = true)
    (hv : d.capVideoCapture = false) :
    runMain d reqW reqH =
      (1, [Event.openDev, Event.queryCap, Event.errNoCapture, Event.closeDev]) := by
  unfold runMain initVideoDevice checkCapabilities
  simp [ho, hq, hv]

lemma runMain_noStreaming (d : Device) (reqW reqH : Int)
    (ho : d.openOk = true) (hq : d.queryCapOk = true)
    (hv : d.capVideoCapture = true) (hstr : d.capStreaming = false) :
    runMain d reqW reqH =
      (1, [Event.openDev, Event.queryCap, Event.errNoStreaming, Event.closeDev]) := by
  unfold runMain initVideoDevice checkCapabilities
  simp [ho, hq, hv, hstr]

lemma convRows_map_length (buf : List Nat) (w : Nat) :
    ∀ (h : Nat) (off : Nat) (z : Bool),
      (convRows buf w off z h).map List.length = List.replicate h w := by
  intro h
  induction h with
  | zero => intro off z; simp [convRows]
  | succ k ih =>
    intro off z
    simp [convRows, List.replicate_succ, convRow_length, ih]

lemma runMain_trace_success (d : Device) (reqW reqH : Int) (wh : Int × Int)
    (hiv : (initVideoDevice d).1 = true)
    (hsf : (setFormat d reqW reqH).1 = some wh)
    (hab : (allocBuffer d).1 = true)
    (hc0 : (captureImage d 0).1 = true)
    (hc1 : (captureImage d 1).1 = true) :
    (runMain d reqW reqH).2 =
      (initVideoDevice d).2 ++ (setFormat d reqW reqH).2 ++ (allocBuffer d).2
        ++ (captureImage d 0).2 ++ (captureImage d 1).2
        ++ (saveImage d wh.1 wh.2).2 ++ [Event.munmapB, Event.closeDev] := by
  unfold runMain
  simp [hiv, hsf, hab, hc0, hc1]

lemma encodeRows_mem_runMain (d : Device) (reqW reqH : Int) (w' h' : Int)
    (wh : Int × Int) (hsf : (setFormat d reqW reqH).1 = some wh) :
    Event.encodeRows w' h' ∈ (runMain d reqW reqH).2 → w' = wh.1 ∧ h' = wh.2 := by
  unfold runMain
  cases hiv : (initVideoDevice d).1
  · intro hmem
    simp only [Bool.not_false, if_true] at hmem
    exact absurd hmem (encodeRows_not_mem_iv d w' h')
  · simp only [hsf, Bool.not_true, Bool.false_eq_true, if_false]
    cases hab : (allocBuffer d).1
    · intro hmem
      simp only [hab, Bool.not_false, if_true] at hmem
      simp [List.mem_append, encodeRows_not_mem_iv, encodeRows_not_mem_sf,
        encodeRows_not_mem_ab] at hmem
    · cases hc0 : (captureImage d 0).1
      · intro hmem
        simp only [hab, hc0, Bool.not_true, Bool.not_false, if_true,
          Bool.false_eq_true, if_false] at hmem
        simp [List.mem_append, encodeRows_not_mem_iv, encodeRows_not_mem_sf,
          encodeRows_not_mem_ab, encodeRows_not_mem_ci] at hmem
      · cases hc1 : (captureImage d 1).1
        · intro hmem
          simp only [hab, hc0, hc1, Bool.not_true, Bool.not_false, if_true,
            Bool.false_eq_true, if_false] at hmem
          simp [List.mem_append, encodeRows_not_mem_iv, encodeRows_not_mem_sf,
            encodeRows_not_mem_ab, encodeRows_not_mem_ci] at hmem
        · intro hmem
          simp only [hab, hc0, hc1, Bool.not_true, Bool.not_false, if_true,
            Bool.false_eq_true, if_false] at hmem
          simp only [List.mem_append] at hmem
          rcases hmem with ((((((hmem | hmem) | hmem) | hmem) | hmem) | hmem) | hmem)
          · exact absurd hmem (encodeRows_not_mem_iv d w' h')
          · exact absurd hmem (encodeRows_not_mem_sf d reqW reqH w' h')
          · exact absurd hmem (encodeRows_not_mem_ab d w' h')
          · exact absurd hmem (encodeRows_not_mem_ci d 0 w' h')
          · exact absurd hmem (encodeRows_not_mem_ci d 1 w' h')
          · exact encodeRows_mem_save d wh.1 wh.2 w' h' hmem
          · simp at hmem

/-- Like `devOK` but the driver adjusts both dimensions. -/
def devAdjusted : Device :=
  { devOK with gFmtWidth := 320, gFmtHeight := 240 }

/-- Like `devOK` but the JPEG row-buffer allocation fails. -/
def devNoCalloc : Device :=
  { devOK with callocOk := false }

/-- Like `devOK` but the device lacks the video-capture capability flag. -/
def devNoCapture : Device :=
  { devOK with capVideoCapture := false }

/-- Claim C1 (corrected), counterexample to the claim as stated: a run in
which open, capability check, format negotiation, buffer allocation and the
discard cycle all succeed (the buffer is mapped and cycle 0 reaches
stream-off) but the live capture cycle times out — yet the process exit
status is 0, contradicting "exit status 0 occurs only when the whole
pipeline, including the live capture cycle and the file write, succeeds". -/
theorem c1_exit_counterexample :
    (runMain devLiveTimeout 640 480).1 = 0 ∧
    Event.mmapB ∈ (runMain devLiveTimeout 640 480).2 ∧
    Event.streamOff 0 ∈ (runMain devLiveTimeout 640 480).2 ∧
    Event.errTimeout 1 ∈ (runMain devLiveTimeout 640 480).2 ∧
    Event.fopenE ∉ (runMain devLiveTimeout 640 480).2 := by
  decide

/-- Claim C1 (amended): the process exits 0 exactly when open, the
capability check, format negotiation, buffer allocation and the discard
capture cycle all succeed; failures of the live capture cycle or of the
encode/write step do not affect the exit status. -/
theorem c1_exit_amended (d : Device) (reqW reqH : Int) :
    (runMain d reqW reqH).1 = 0 ↔ (setupOK d && cycleOK d 0) = true := by
  rw [runMain_fst]
  split_ifs with hcond
  · simp [hcond]
  · simp [hcond]

/-- Claim C2 (corrected), counterexample to the claim as stated: a cycle
whose readiness wait times out returns with streaming still enabled — the
stream-off ioctl is never attempted — so the device is not returned to the
Idle state "whatever the outcome of the bounded readiness wait". -/
theorem c2_streamoff_counterexample :
    Event.streamOn 0 ∈ (captureImage devTimeout 0).2 ∧
    Event.errTimeout 0 ∈ (captureImage devTimeout 0).2 ∧
    (captureImage devTimeout 0).1 = false ∧
    Event.streamOff 0 ∉ (captureImage devTimeout 0).2 := by
  decide

/-- Claim C2 (amended): the stream-off ioctl is attempted before the cycle
returns exactly when the queue, stream-on and wait steps succeed with a
frame ready and the dequeue succeeds (on a wait error, a timeout, or a
queue/dequeue failure the cycle returns with streaming left on); the cycle
as a whole succeeds exactly when additionally the stream-off ioctl
succeeds; and on a run where setup and both cycles succeed, the two cycles
run back-to-back against the single format negotiation and single buffer
allocation, followed by the save. -/
theorem c2_streamoff_amended (d : Device) (c : Nat) (reqW reqH : Int)
    (wh : Int × Int) :
    (Event.streamOff c ∈ (captureImage d c).2 ↔
      ((d.qbufOk c && d.streamOnOk c && d.dqbufOk c) = true ∧
        d.selectRes c = SelectRes.ready)) ∧
    ((captureImage d c).1 = true ↔ cycleOK d c = true) ∧
    ((setupOK d && cycleOK d 0 && cycleOK d 1) = true →
      (setFormat d reqW reqH).1 = some wh →
      (runMain d reqW reqH).2 =
        (initVideoDevice d).2 ++ (setFormat d reqW reqH).2 ++ (allocBuffer d).2
          ++ (captureImage d 0).2 ++ (captureImage d 1).2
          ++ (saveImage d wh.1 wh.2).2 ++ [Event.munmapB, Event.closeDev]) := by
  refine ⟨?_, by rw [captureImage_fst], ?_⟩
  · unfold captureImage
    cases hq : d.qbufOk c <;> cases hs : d.streamOnOk c <;> cases hr : d.selectRes c <;>
      cases hd : d.dqbufOk c <;> cases ho : d.streamOffOk c <;> simp [hq, hs, hr, hd, ho]
  · intro hall hsf
    simp only [Bool.and_eq_true] at hall
    obtain ⟨⟨hsetup, hcy0⟩, hcy1⟩ := hall
    have hc0 : (captureImage d 0).1 = true := by rw [captureImage_fst]; exact hcy0
    have hc1 : (captureImage d 1).1 = true := by rw [captureImage_fst]; exact hcy1
    unfold setupOK at hsetup
    simp only [Bool.and_eq_true] at hsetup
    have hiv : (initVideoDevice d).1 = true := by
      rw [initVideoDevice_fst]
      simp [hsetup.1.1.1, hsetup.1.1.2]
    have hab : (allocBuffer d).1 = true := by
      rw [allocBuffer_fst]; exact hsetup.2
    exact runMain_trace_success d reqW reqH wh hiv hsf hab hc0 hc1

/-- Claim C2 (amended) at a concrete input: on the all-success device the
hypotheses hold and the run's trace decomposes into one init, one format
negotiation, one allocation, the two capture cycles and the save. -/
theorem c2_streamoff_witness :
    (setupOK devOK && cycleOK devOK 0 && cycleOK devOK 1) = true ∧
    (setFormat devOK 640 480).1 = some (640, 480) ∧
    (runMain devOK 640 480).2 =
      (initVideoDevice devOK).2 ++ (setFormat devOK 640 480).2
        ++ (allocBuffer devOK).2 ++ (captureImage devOK 0).2
        ++ (captureImage devOK 1).2 ++ (saveImage devOK 640 480).2
        ++ [Event.munmapB, Event.closeDev] :=
  ⟨by decide, by decide,
    (c2_streamoff_amended devOK 0 640 480 (640, 480)).2.2 (by decide) (by decide)⟩

/-- Claim C3: for every pair of horizontally adjacent pixels packed as the
four bytes at offsets off..off+3 (Y0, U, Y1, V), the conversion loop emits
two pixels computed by the claim's formula — y = (own luma byte) << 8,
u = U - 128 and v = V - 128 shared, r = (y + 359v) >> 8,
g = (y - 88u - 183v) >> 8, b = (y + 454u) >> 8, each clamped to [0, 255] —
and continues 4 bytes further on. -/
theorem c3_pair_conversion (buf : List Nat) (off : Nat) (n : Nat) :
    (convRow buf off false (n + 2)).1 =
      specPairFormula (buf.getD off 0) (buf.getD (off + 1) 0) (buf.getD (off + 3) 0) ::
      specPairFormula (buf.getD (off + 2) 0) (buf.getD (off + 1) 0) (buf.getD (off + 3) 0) ::
      (convRow buf (off + 4) false n).1 := rfl

/-- Claim C4 (corrected), counterexample to the claim as stated: the 2×2
fixture [16,128,16,128, 16,128,16,128] converts to four pixels equal to
RGB (16,16,16), not to RGB (0,0,0) up to the sub-unit rounding of the
8-bit shift. -/
theorem c4_fixture_counterexample :
    YUYV2RGB [16, 128, 16, 128, 16, 128, 16, 128] 2 2 =
      [[⟨16, 16, 16⟩, ⟨16, 16, 16⟩], [⟨16, 16, 16⟩, ⟨16, 16, 16⟩]] ∧
    ¬ (∀ row ∈ YUYV2RGB [16, 128, 16, 128, 16, 128, 16, 128] 2 2, ∀ p ∈ row,
        p.r ≤ 1 ∧ p.g ≤ 1 ∧ p.b ≤ 1) := by
  decide

/-- Claim C4 (amended): the 2×2 fixture with luma 16 and centered chroma
converts to four pixels all equal to RGB (16,16,16): the conversion applies
no black-level offset, so luma byte 16 maps to gray level 16. -/
theorem c4_fixture_amended :
    YUYV2RGB [16, 128, 16, 128, 16, 128, 16, 128] 2 2 =
      [[⟨16, 16, 16⟩, ⟨16, 16, 16⟩], [⟨16, 16, 16⟩, ⟨16, 16, 16⟩]] := by
  decide

/-- Claim C5: after both format ioctls succeed (with dimensions in the
`int`/`__u32` ranges the program can represent), the session adopts the
driver-confirmed width/height — never the raw request; a mismatch with the
request only emits the warning (negotiation still succeeds); and any
encode step of the run uses exactly the driver-confirmed dimensions. -/
theorem c5_format_reconciliation (d : Device) (reqW reqH : Int)
    (hs : d.sFmtOk = true) (hg : d.gFmtOk = true)
    (hwb : d.gFmtWidth < 2147483648) (hhb : d.gFmtHeight < 2147483648)
    (hw1 : -2147483648 ≤ reqW) (hw2 : reqW < 2147483648)
    (hh1 : -2147483648 ≤ reqH) (hh2 : reqH < 2147483648) :
    (setFormat d reqW reqH).1 = some ((d.gFmtWidth : Int), (d.gFmtHeight : Int)) ∧
    ((d.gFmtWidth : Int) ≠ reqW → Event.warnWidth ∈ (setFormat d reqW reqH).2) ∧
    ((d.gFmtHeight : Int) ≠ reqH → Event.warnHeight ∈ (setFormat d reqW reqH).2) ∧
    (∀ w' h', Event.encodeRows w' h' ∈ (runMain d reqW reqH).2 →
      w' = (d.gFmtWidth : Int) ∧ h' = (d.gFmtHeight : Int)) := by
  obtain ⟨hfst, hww, hwh⟩ := setFormat_ok d reqW reqH hs hg hwb hhb hw1 hw2 hh1 hh2
  refine ⟨hfst, hww, hwh, ?_⟩
  intro w' h' hmem
  exact encodeRows_mem_runMain d reqW reqH w' h'
    ((d.gFmtWidth : Int), (d.gFmtHeight : Int)) hfst hmem

/-- Claim C5 at a concrete input: the driver adjusts 640×480 to 320×240;
negotiation still succeeds, the adopted session dimensions are the driver
values, the width warning is emitted, and the encode step of the full run
uses 320×240. -/
theorem c5_format_witness :
    (setFormat devAdjusted 640 480).1 = some (320, 240) ∧
    Event.warnWidth ∈ (setFormat devAdjusted 640 480).2 ∧
    Event.encodeRows 320 240 ∈ (runMain devAdjusted 640 480).2 ∧
    (∀ w' h', Event.encodeRows w' h' ∈ (runMain devAdjusted 640 480).2 →
      w' = 320 ∧ h' = 240) := by
  obtain ⟨h1, h2, _, h4⟩ := c5_format_reconciliation devAdjusted 640 480 rfl rfl
    (by decide) (by decide) (by decide) (by decide) (by decide) (by decide)
  exact ⟨h1, h2 (by decide), by decide, h4⟩

/-- Claim C6: when the device opens and the capability query succeeds but
either required flag (video capture, streaming I/O) is absent, the run
exits 1 with the flag-specific unsupported message (not the query-failure
message), and neither the buffer request, the buffer query, the mapping,
nor any capture-cycle queueing is ever attempted. -/
theorem c6_capability_gate (d : Device) (reqW reqH : Int)
    (ho : d.openOk = true) (hq : d.queryCapOk = true)
    (hcap : (d.capVideoCapture && d.capStreaming) = false) :
    (runMain d reqW reqH).1 = 1 ∧
    (Event.errNoCapture ∈ (runMain d reqW reqH).2 ∨
      Event.errNoStreaming ∈ (runMain d reqW reqH).2) ∧
    Event.errQueryCap ∉ (runMain d reqW reqH).2 ∧
    Event.reqBufs ∉ (runMain d reqW reqH).2 ∧
    Event.queryBuf ∉ (runMain d reqW reqH).2 ∧
    Event.mmapB ∉ (runMain d reqW reqH).2 ∧
    (∀ c, Event.qbuf c ∉ (runMain d reqW reqH).2) := by
  cases hv : d.capVideoCapture
  · rw [runMain_noCapture d reqW reqH ho hq hv]
    exact ⟨rfl, Or.inl (by simp), by simp, by simp, by simp, by simp, fun c => by simp⟩
  · have hstr : d.capStreaming = false := by
      rw [hv] at hcap
      simpa using hcap
    rw [runMain_noStreaming d reqW reqH ho hq hv hstr]
    exact ⟨rfl, Or.inr (by simp), by simp, by simp, by simp, by simp, fun c => by simp⟩

/-- Claim C6 at a concrete input: a device reporting no video-capture
capability aborts with exit 1, emits the capture-specific message, and
never requests, queries, maps or queues a buffer. -/
theorem c6_capability_gate_witness :
    (runMain devNoCapture 640 480).1 = 1 ∧
    Event.errNoCapture ∈ (runMain devNoCapture 640 480).2 ∧
    Event.errQueryCap ∉ (runMain devNoCapture 640 480).2 ∧
    Event.reqBufs ∉ (runMain devNoCapture 640 480).2 ∧
    Event.mmapB ∉ (runMain devNoCapture 640 480).2 ∧
    Event.qbuf 0 ∉ (runMain devNoCapture 640 480).2 := by
  obtain ⟨h1, h2, h3, h4, _, h6, h7⟩ :=
    c6_capability_gate devNoCapture 640 480 rfl rfl (by decide)
  refine ⟨h1, ?_, h3, h4, h6, h7 0⟩
  rcases h2 with h2 | h2
  · exact h2
  · exact absurd h2 (by decide)

/-- Claim C7: when a cycle's readiness wait times out (after queue and
stream-on succeeded), the cycle fails with the timeout message — which is
distinct from the hard select-error message, absent from the trace — and
the run never opens (hence never creates or truncates) the output file. -/
theorem c7_timeout_no_output (d : Device) (reqW reqH : Int) (c : Nat)
    (hq : d.qbufOk c = true) (hs : d.streamOnOk c = true)
    (ht : d.selectRes c = SelectRes.timeout) (hc : c = 0 ∨ c = 1) :
    (captureImage d c).1 = false ∧
    Event.errTimeout c ∈ (captureImage d c).2 ∧
    Event.errSelect c ∉ (captureImage d c).2 ∧
    Event.fopenE ∉ (runMain d reqW reqH).2 := by
  have hcap : captureImage d c =
      (false, [Event.qbuf c, Event.streamOn c, Event.selectW c, Event.errTimeout c]) := by
    unfold captureImage
    simp [hq, hs, ht]
  refine ⟨by rw [hcap], by rw [hcap]; simp, by rw [hcap]; simp, ?_⟩
  intro hmem
  obtain ⟨h0, h1⟩ := fopenE_mem_runMain d reqW reqH hmem
  rcases hc with rfl | rfl
  · have hr := captureImage_true_ready d 0 h0
    rw [ht] at hr
    simp at hr
  · have hr := captureImage_true_ready d 1 h1
    rw [ht] at hr
    simp at hr

/-- Claim C7 at a concrete input: on a device whose waits all time out, the
first cycle fails with the timeout (not the select-error) message and the
output file is never opened. -/
theorem c7_timeout_no_output_witness :
    (captureImage devTimeout 0).1 = false ∧
    Event.errTimeout 0 ∈ (captureImage devTimeout 0).2 ∧
    Event.errSelect 0 ∉ (captureImage devTimeout 0).2 ∧
    Event.fopenE ∉ (runMain devTimeout 640 480).2 :=
  c7_timeout_no_output devTimeout 640 480 0 rfl rfl rfl (Or.inl rfl)

/-- Claim C8: for a valid packed-422 buffer (2 bytes per pixel) with even
width and positive height, the conversion yields height scanlines of width
pixels each — width×height pixels in all — and every channel of every
output pixel lies in [0, 255]. -/
theorem c8_output_shape (buf : List Nat) (w h : Nat)
    (hw : 2 ∣ w) (hh : 0 < h) (hlen : buf.length = 2 * (w * h)) :
    (YUYV2RGB buf w h).length = h ∧
    (∀ row ∈ YUYV2RGB buf w h, row.length = w) ∧
    (YUYV2RGB buf w h).flatten.length = w * h ∧
    (∀ row ∈ YUYV2RGB buf w h, ∀ p ∈ row,
      0 ≤ p.r ∧ p.r ≤ 255 ∧ 0 ≤ p.g ∧ p.g ≤ 255 ∧ 0 ≤ p.b ∧ p.b ≤ 255) := by
  refine ⟨convRows_length buf w h 0 false,
    fun row hr => convRows_row_length buf w h 0 false row hr, ?_,
    fun row hr p hp => convRows_bounds buf w h 0 false row hr p hp⟩
  unfold YUYV2RGB
  rw [List.length_flatten, convRows_map_length buf w h 0 false, List.sum_replicate,
    smul_eq_mul, Nat.mul_comm]

/-- Claim C8 at a concrete input: a 2×1 image from a 4-byte buffer has one
scanline of two pixels, two pixels in all, with channels in range. -/
theorem c8_output_shape_witness :
    (YUYV2RGB [0, 0, 0, 0] 2 1).length = 1 ∧
    (∀ row ∈ YUYV2RGB [0, 0, 0, 0] 2 1, row.length = 2) ∧
    (YUYV2RGB [0, 0, 0, 0] 2 1).flatten.length = 2 * 1 ∧
    (∀ row ∈ YUYV2RGB [0, 0, 0, 0] 2 1, ∀ p ∈ row,
      0 ≤ p.r ∧ p.r ≤ 255 ∧ 0 ≤ p.g ∧ p.g ≤ 255 ∧ 0 ≤ p.b ∧ p.b ≤ 255) :=
  c8_output_shape [0, 0, 0, 0] 2 1 (by decide) (by decide) (by decide)

/-- Claim C9: whenever the output file opens for writing, `saveImage`
returns true and prints the saved-to message regardless of the encode
result (which it discards): a row-buffer allocation failure still yields
the success report, and a run whose setup and discard cycle succeeded
still exits 0. -/
theorem c9_save_ignores_encode (d : Device) (w h reqW reqH : Int)
    (hf : d.fopenOk = true) :
    (saveImage d w h).1 = true ∧
    Event.savedMsg ∈ (saveImage d w h).2 ∧
    (d.callocOk = false → Event.errLineBuf ∈ (saveImage d w h).2) ∧
    ((setupOK d && cycleOK d 0) = true → (runMain d reqW reqH).1 = 0) := by
  refine ⟨by rw [saveImage_fst]; exact hf, ?_, ?_, ?_⟩
  · unfold saveImage YUYV2JPEGrun
    cases hcal : d.callocOk <;> simp [hf, hcal]
  · intro hcal
    unfold saveImage YUYV2JPEGrun
    simp [hf, hcal]
  · intro hok
    rw [runMain_fst, if_pos hok]

/-- Claim C9 at a concrete input: with the row-buffer allocation failing,
`saveImage` still reports success (and prints the saved-to message after
the allocation-failure message) and the whole run exits 0. -/
theorem c9_save_ignores_encode_witness :
    (saveImage devNoCalloc 640 480).1 = true ∧
    Event.errLineBuf ∈ (saveImage devNoCalloc 640 480).2 ∧
    Event.savedMsg ∈ (saveImage devNoCalloc 640 480).2 ∧
    (runMain devNoCalloc 640 480).1 = 0 := by
  obtain ⟨h1, h2, h3, h4⟩ := c9_save_ignores_encode devNoCalloc 640 480 640 480 rfl
  exact ⟨h1, h3 rfl, h2, h4 (by decide)⟩

/-- Claim C10: the default-with-warning fallback of the -w and -h options fires
exactly when `atoi` yields 0; any nonzero parse — negative included — is
adopted unchanged as the requested dimension and handed to format
negotiation (the S_FMT request of the run carries it). -/
theorem c10_dim_option (s : String) (d : Device) (reqH : Int)
    (ho : d.openOk = true) (hq : d.queryCapOk = true)
    (hv : d.capVideoCapture = true) (hstr : d.capStreaming = true) :
    (atoi s = 0 → parseDimArg 640 s = (640, true) ∧ parseDimArg 480 s = (480, true)) ∧
    (atoi s ≠ 0 → parseDimArg 640 s = (atoi s, false) ∧ parseDimArg 480 s = (atoi s, false)) ∧
    Event.sFmt (parseDimArg 640 s).1 reqH ∈ (runMain d (parseDimArg 640 s).1 reqH).2 := by
  refine ⟨?_, ?_, ?_⟩
  · intro hz
    simp [parseDimArg, hz]
  · intro hz
    simp [parseDimArg, hz]
  · apply sFmt_mem_runMain
    rw [initVideoDevice_fst]
    unfold capsOK
    simp [ho, hq, hv, hstr]

/-- Claim C10 at a concrete input: "-5" parses to the nonzero value -5,
which is adopted unchanged (no warning) and appears as the requested width
of the run's format negotiation; "0" and "x" parse to 0 and fall back to
the default with the warning. -/
theorem c10_dim_option_witness :
    parseDimArg 640 "-5" = (-5, false) ∧
    Event.sFmt (-5) 480 ∈ (runMain devOK (-5) 480).2 ∧
    parseDimArg 640 "0" = (640, true) ∧
    parseDimArg 640 "x" = (640, true) := by
  obtain ⟨_, _, hmem⟩ := c10_dim_option "-5" devOK 480 rfl rfl rfl rfl
  refine ⟨by decide, ?_, by decide, by decide⟩
  have h5 : (parseDimArg 640 "-5").1 = -5 := by decide
  rw [← h5]
  exact hmem
